import Mathlib

/-!
Shallow embedding of `src/CurvedArrow.js` (react-curved-arrow).

Numeric pixel coordinates are modelled as rationals; `Math.round` is
Mathlib's `round` (both are `⌊x + 1/2⌋`).  The Curve Sampler
(`bezier`, `quadraticCurveMinMax`) becomes pure functions; the React
`render` method becomes a state transformer over an explicit timeout
scheduler; the canvas transform stack around the arrowhead becomes
composition of affine maps on `ℝ × ℝ`.
-/

/-- Quadratic Bézier value on one axis, from `bezier` in CurvedArrow.js:
`p1 + (1 - t) * (1 - t) * (p0 - p1) + t * t * (p2 - p1)`. -/
def bezier (p0 p1 p2 t : ℚ) : ℚ :=
  p1 + (1 - t) * (1 - t) * (p0 - p1) + t * t * (p2 - p1)

/-- Per-axis extent of the quadratic curve, from `quadraticCurveMinMax` in
CurvedArrow.js: start from the endpoints, widen by the interior critical
point `t = (p0 - p1) / (p0 - 2*p1 + p2)` when the denominator is nonzero
and `0 < t < 1`, and return both bounds rounded (`Math.round`). -/
def quadraticCurveMinMax (p0 p1 p2 : ℚ) : ℤ × ℤ :=
  let mn := min p0 p2
  let mx := max p0 p2
  if p0 - 2 * p1 + p2 ≠ 0 then
    let t := (p0 - p1) / (p0 - 2 * p1 + p2)
    if 0 < t ∧ t < 1 then
      let pm := bezier p0 p1 p2 t
      (round (min mn pm), round (max mx pm))
    else (round mn, round mx)
  else (round mn, round mx)

/-- Pre-rounding extent: the pair the JS function holds in its `min`/`max`
locals right before the final `Math.round` calls. -/
def curveRawMinMax (p0 p1 p2 : ℚ) : ℚ × ℚ :=
  let mn := min p0 p2
  let mx := max p0 p2
  if p0 - 2 * p1 + p2 ≠ 0 then
    let t := (p0 - p1) / (p0 - 2 * p1 + p2)
    if 0 < t ∧ t < 1 then
      let pm := bezier p0 p1 p2 t
      (min mn pm, max mx pm)
    else (mn, mx)
  else (mn, mx)

/-- Resolved bounding rectangle of a DOM element (`getBoundingClientRect`),
in viewport coordinates. -/
structure Rect where
  left : ℚ
  top : ℚ
  width : ℚ
  height : ℚ

/-- Component props, with the default values destructured at the top of `render`.
`hideIfFoundProvided` models whether the optional `hideIfFoundSelector` prop is set. -/
structure Props where
  fromOffsetX : ℚ := 0
  fromOffsetY : ℚ := 0
  toOffsetX : ℚ := 0
  toOffsetY : ℚ := 0
  middleX : ℚ := 0
  middleY : ℚ := 0
  width : ℚ := 8
  hideIfFoundProvided : Bool := false
  dynamicUpdate : Bool := false

/-- Snapshot of the DOM environment one render pass observes: whether `window`
exists, what the two selectors resolve to, whether `hideIfFoundSelector`
resolves, and the vertical scroll position. -/
structure Dom where
  serverSide : Bool
  fromElem : Option Rect
  toElem : Option Rect
  hideFound : Bool
  scrollY : ℚ

/-- The `settings` object passed to the canvas ref callback. -/
structure Settings where
  p0x : ℚ
  p0y : ℚ
  p1x : ℚ
  p1y : ℚ
  p2x : ℚ
  p2y : ℚ
  size : ℚ
  lineWidth : ℚ

/-- Scheduler state: the instance's `this.timer` field plus the host's queue of
pending timeouts, each a pair of handle and delay in milliseconds. -/
structure Sched where
  timer : Option Nat
  pending : List (Nat × Nat)
  nextId : Nat

/-- Cancel a timeout: the handle's entry leaves the pending queue. -/
def clearTimeout (s : Sched) (id : Nat) : Sched :=
  { s with pending := s.pending.filter (fun q => q.1 != id) }

/-- Schedule a timeout after `delay` milliseconds, returning the fresh handle. -/
def setTimeout (s : Sched) (delay : Nat) : Nat × Sched :=
  (s.nextId, { s with pending := s.pending ++ [(s.nextId, delay)], nextId := s.nextId + 1 })

/-- Scheduler state of a freshly mounted instance: no timer, nothing pending. -/
def initialSched : Sched := ⟨none, [], 0⟩

/-- Props record with every default value. -/
def defaultProps : Props := {}

/-- One pass of `CurvedArrow.render`, mirroring the statement order of the JS
method: `this.timer = null` first, the server-side bail-out, selector
resolution, the `if (this.timer) clearTimeout(this.timer)` guard (dead, since
the field was just nulled), retry scheduling with delay 200, the
missing-element and `hideIfFoundSelector` bail-outs, then the anchor and
control point computation.  Returns the `settings` handed to the canvas
(`none` when the method returns null) together with the new scheduler state. -/
def render (props : Props) (dom : Dom) (s0 : Sched) : Option Settings × Sched :=
  let s1 : Sched := { s0 with timer := none }
  if dom.serverSide then (none, s1)
  else
    let s2 : Sched :=
      match s1.timer with
      | some id => { clearTimeout s1 id with timer := s1.timer }
      | none => s1
    let s3 : Sched :=
      if props.dynamicUpdate || dom.fromElem.isNone || dom.toElem.isNone then
        let r := setTimeout s2 200
        { r.2 with timer := some r.1 }
      else s2
    match dom.fromElem, dom.toElem with
    | some fromRect, some toRect =>
      if props.hideIfFoundProvided && dom.hideFound then (none, s3)
      else
        let p0x := fromRect.left + fromRect.width / 2 + props.fromOffsetX
        let p0y := fromRect.top + fromRect.height / 2 - props.fromOffsetY + dom.scrollY
        let p2x := toRect.left + toRect.width / 2 + props.toOffsetX
        let p2y := toRect.top + toRect.height / 2 - props.toOffsetY + dom.scrollY
        let p1x := (p0x + p2x) / 2 + props.middleX
        let p1y := (p0y + p2y) / 2 - props.middleY
        (some ⟨p0x, p0y, p1x, p1y, p2x, p2y, 30, props.width⟩, s3)
    | _, _ => (none, s3)

/-- Teardown, from `componentWillUnmount`: `if (this.timer) clearTimeout(this.timer)`. -/
def componentWillUnmount (s : Sched) : Sched :=
  match s.timer with
  | some id => clearTimeout s id
  | none => s

/-- DOM snapshot in which neither selector resolves. -/
def domMissing : Dom := ⟨false, none, none, false, 0⟩

/-- Anchor point exactly as the spec words it: the element's center
`(left + width/2, top + height/2)`, X offset added, Y offset subtracted, and
the vertical scroll position added to Y to reach page coordinates. -/
def specAnchor (r : Rect) (offX offY scrollY : ℚ) : ℚ × ℚ :=
  (r.left + r.width / 2 + offX, r.top + r.height / 2 - offY + scrollY)

/-- Control point exactly as the spec words it: the midpoint of the two anchors
plus `(middleX, -middleY)`. -/
def specControl (a b : ℚ × ℚ) (mX mY : ℚ) : ℚ × ℚ :=
  ((a.1 + b.1) / 2 + mX, (a.2 + b.2) / 2 - mY)

/-- Axis-aligned canvas bounding box in page coordinates. -/
structure Box where
  xMin : ℚ
  xMax : ℚ
  yMin : ℚ
  yMax : ℚ

/-- Canvas box computed in the canvas ref callback: the rounded per-axis
extents of the curve, expanded by `padding = settings.size - settings.lineWidth`
on all sides (`x_min`, `x_max`, `y_min`, `y_max` in the source). -/
def canvasBox (st : Settings) : Box :=
  let xmm := quadraticCurveMinMax st.p0x st.p1x st.p2x
  let ymm := quadraticCurveMinMax st.p0y st.p1y st.p2y
  let padding := st.size - st.lineWidth
  ⟨(xmm.1 : ℚ) - padding, (xmm.2 : ℚ) + padding,
   (ymm.1 : ℚ) - padding, (ymm.2 : ℚ) + padding⟩

/-- Rotation of the 2D drawing context by `θ` radians (`ctx.rotate(θ)`), as the
linear map it applies to subsequently drawn coordinates. -/
noncomputable def ctxRotate (θ : ℝ) (p : ℝ × ℝ) : ℝ × ℝ :=
  (p.1 * Real.cos θ - p.2 * Real.sin θ, p.1 * Real.sin θ + p.2 * Real.cos θ)

/-- Translation of the 2D drawing context (`ctx.translate(vx, vy)`). -/
def ctxTranslate (v p : ℝ × ℝ) : ℝ × ℝ := (p.1 + v.1, p.2 + v.2)

/-- Heading angle `Math.atan2(y, x)` used for the arrowhead
(`Math.atan2(p2y - p1y, p2x - p1x)` in the source). -/
noncomputable def atan2 (y x : ℝ) : ℝ :=
  if 0 < x then Real.arctan (y / x)
  else if x < 0 then
    if 0 ≤ y then Real.arctan (y / x) + Real.pi else Real.arctan (y / x) - Real.pi
  else
    if 0 < y then Real.pi / 2 else if y < 0 then -(Real.pi / 2) else 0

/-- Composite mapping of a list of context transform commands: each command
post-multiplies the current transform, so a drawn point passes through the
commands with the first issued command applied last (outermost). -/
noncomputable def composite (ops : List ((ℝ × ℝ) → (ℝ × ℝ))) : (ℝ × ℝ) → (ℝ × ℝ) :=
  ops.foldr (fun f g => f ∘ g) id

/-- Transform commands issued around the arrowhead, in source order:
`ctx.translate(p2x, p2y)`, `ctx.rotate(angle + 1)`, `ctx.rotate(-2)`,
`ctx.rotate(1 - angle)`, `ctx.translate(-p2x, -p2y)`. -/
noncomputable def arrowheadOps (angle : ℝ) (p2 : ℝ × ℝ) : List ((ℝ × ℝ) → (ℝ × ℝ)) :=
  [ctxTranslate p2, ctxRotate (angle + 1), ctxRotate (-2), ctxRotate (1 - angle),
   ctxTranslate (-p2.1, -p2.2)]

/-- Page-coordinate endpoint of the second arrowhead stroke: the drawn point
`(0, -size)` of `ctx.lineTo(0, -settings.size)` mapped through the transforms
active at that moment, `translate(p2)`, `rotate(angle + 1)`, `rotate(-2)`,
where `angle = atan2(p2y - p1y, p2x - p1x)`. -/
noncomputable def arrowheadLeftTip (p1 p2 : ℝ × ℝ) (size : ℝ) : ℝ × ℝ :=
  let angle := atan2 (p2.2 - p1.2) (p2.1 - p1.1)
  composite [ctxTranslate p2, ctxRotate (angle + 1), ctxRotate (-2)] (0, -size)

theorem quadraticCurveMinMax_eq_round (p0 p1 p2 : ℚ) :
    quadraticCurveMinMax p0 p1 p2 =
      (round (curveRawMinMax p0 p1 p2).1, round (curveRawMinMax p0 p1 p2).2) := by
  unfold quadraticCurveMinMax curveRawMinMax
  by_cases hd : p0 - 2 * p1 + p2 = 0
  · simp [hd]
  · by_cases ht : 0 < (p0 - p1) / (p0 - 2 * p1 + p2) ∧ (p0 - p1) / (p0 - 2 * p1 + p2) < 1 <;>
      simp [hd, ht]

theorem curveRawMinMax_of_crit (p0 p1 p2 : ℚ) (hd : p0 - 2 * p1 + p2 ≠ 0)
    (hts : 0 < (p0 - p1) / (p0 - 2 * p1 + p2) ∧ (p0 - p1) / (p0 - 2 * p1 + p2) < 1) :
    curveRawMinMax p0 p1 p2 =
      (min (min p0 p2) (bezier p0 p1 p2 ((p0 - p1) / (p0 - 2 * p1 + p2))),
       max (max p0 p2) (bezier p0 p1 p2 ((p0 - p1) / (p0 - 2 * p1 + p2)))) := by
  unfold curveRawMinMax
  simp [hd, hts]

theorem curveRawMinMax_of_no_crit (p0 p1 p2 : ℚ)
    (h : p0 - 2 * p1 + p2 = 0 ∨
      ¬(0 < (p0 - p1) / (p0 - 2 * p1 + p2) ∧ (p0 - p1) / (p0 - 2 * p1 + p2) < 1)) :
    curveRawMinMax p0 p1 p2 = (min p0 p2, max p0 p2) := by
  unfold curveRawMinMax
  rcases h with hd | hts
  · simp [hd]
  · by_cases hd : p0 - 2 * p1 + p2 = 0 <;> simp [hd, hts]

theorem min_le_bezier_of_nonpos (p0 p1 p2 t : ℚ) (hd : p0 - 2 * p1 + p2 ≤ 0)
    (h0 : 0 ≤ t) (h1 : t ≤ 1) : min p0 p2 ≤ bezier p0 p1 p2 t := by
  have ha : min p0 p2 ≤ p0 := min_le_left _ _
  have hb : min p0 p2 ≤ p2 := min_le_right _ _
  unfold bezier
  nlinarith [mul_nonneg (sub_nonneg.mpr ha) (sub_nonneg.mpr h1),
    mul_nonneg (sub_nonneg.mpr hb) h0,
    mul_nonneg (mul_nonneg h0 (sub_nonneg.mpr h1)) (neg_nonneg.mpr hd)]

theorem bezier_le_max_of_nonneg (p0 p1 p2 t : ℚ) (hd : 0 ≤ p0 - 2 * p1 + p2)
    (h0 : 0 ≤ t) (h1 : t ≤ 1) : bezier p0 p1 p2 t ≤ max p0 p2 := by
  have ha : p0 ≤ max p0 p2 := le_max_left _ _
  have hb : p2 ≤ max p0 p2 := le_max_right _ _
  unfold bezier
  nlinarith [mul_nonneg (sub_nonneg.mpr ha) (sub_nonneg.mpr h1),
    mul_nonneg (sub_nonneg.mpr hb) h0,
    mul_nonneg (mul_nonneg h0 (sub_nonneg.mpr h1)) hd]

theorem bezier_vertex_eq (p0 p1 p2 t : ℚ) (hd : p0 - 2 * p1 + p2 ≠ 0) :
    bezier p0 p1 p2 t =
      bezier p0 p1 p2 ((p0 - p1) / (p0 - 2 * p1 + p2)) +
        (p0 - 2 * p1 + p2) * (t - (p0 - p1) / (p0 - 2 * p1 + p2)) ^ 2 := by
  have key : (p0 - p1) / (p0 - 2 * p1 + p2) * (p0 - 2 * p1 + p2) = p0 - p1 :=
    div_mul_cancel₀ _ hd
  unfold bezier
  field_simp
  ring

theorem bezier_crit_le_of_pos (p0 p1 p2 t : ℚ) (hd : 0 < p0 - 2 * p1 + p2) :
    bezier p0 p1 p2 ((p0 - p1) / (p0 - 2 * p1 + p2)) ≤ bezier p0 p1 p2 t := by
  rw [bezier_vertex_eq p0 p1 p2 t (ne_of_gt hd)]
  nlinarith [sq_nonneg (t - (p0 - p1) / (p0 - 2 * p1 + p2))]

theorem le_bezier_crit_of_neg (p0 p1 p2 t : ℚ) (hd : p0 - 2 * p1 + p2 < 0) :
    bezier p0 p1 p2 t ≤ bezier p0 p1 p2 ((p0 - p1) / (p0 - 2 * p1 + p2)) := by
  rw [bezier_vertex_eq p0 p1 p2 t (ne_of_lt hd)]
  nlinarith [sq_nonneg (t - (p0 - p1) / (p0 - 2 * p1 + p2))]

theorem p0_le_bezier_of_crit_nonpos (p0 p1 p2 t : ℚ) (hd : 0 < p0 - 2 * p1 + p2)
    (hts : (p0 - p1) / (p0 - 2 * p1 + p2) ≤ 0) (h0 : 0 ≤ t) :
    p0 ≤ bezier p0 p1 p2 t := by
  have key : (p0 - p1) / (p0 - 2 * p1 + p2) * (p0 - 2 * p1 + p2) = p0 - p1 :=
    div_mul_cancel₀ _ (ne_of_gt hd)
  have hmul : 0 ≤ (p0 - 2 * p1 + p2) * t * (t - 2 * ((p0 - p1) / (p0 - 2 * p1 + p2))) := by
    have : 0 ≤ t - 2 * ((p0 - p1) / (p0 - 2 * p1 + p2)) := by linarith
    positivity
  unfold bezier
  nlinarith [hmul, key]

theorem p2_le_bezier_of_crit_ge_one (p0 p1 p2 t : ℚ) (hd : 0 < p0 - 2 * p1 + p2)
    (hts : 1 ≤ (p0 - p1) / (p0 - 2 * p1 + p2)) (h1 : t ≤ 1) :
    p2 ≤ bezier p0 p1 p2 t := by
  have key : (p0 - p1) / (p0 - 2 * p1 + p2) * (p0 - 2 * p1 + p2) = p0 - p1 :=
    div_mul_cancel₀ _ (ne_of_gt hd)
  have hmul : 0 ≤ (p0 - 2 * p1 + p2) * ((1 - t) *
      (2 * ((p0 - p1) / (p0 - 2 * p1 + p2)) - 1 - t)) := by
    have ha : 0 ≤ 1 - t := by linarith
    have hb : 0 ≤ 2 * ((p0 - p1) / (p0 - 2 * p1 + p2)) - 1 - t := by linarith
    positivity
  unfold bezier
  nlinarith [hmul, key]

theorem bezier_le_p0_of_crit_nonpos (p0 p1 p2 t : ℚ) (hd : p0 - 2 * p1 + p2 < 0)
    (hts : (p0 - p1) / (p0 - 2 * p1 + p2) ≤ 0) (h0 : 0 ≤ t) :
    bezier p0 p1 p2 t ≤ p0 := by
  have key : (p0 - p1) / (p0 - 2 * p1 + p2) * (p0 - 2 * p1 + p2) = p0 - p1 :=
    div_mul_cancel₀ _ (ne_of_lt hd)
  have hmul : 0 ≤ (-(p0 - 2 * p1 + p2)) * t * (t - 2 * ((p0 - p1) / (p0 - 2 * p1 + p2))) := by
    have : 0 ≤ t - 2 * ((p0 - p1) / (p0 - 2 * p1 + p2)) := by linarith
    have hneg : 0 ≤ -(p0 - 2 * p1 + p2) := by linarith
    positivity
  unfold bezier
  nlinarith [hmul, key]

theorem bezier_le_p2_of_crit_ge_one (p0 p1 p2 t : ℚ) (hd : p0 - 2 * p1 + p2 < 0)
    (hts : 1 ≤ (p0 - p1) / (p0 - 2 * p1 + p2)) (h1 : t ≤ 1) :
    bezier p0 p1 p2 t ≤ p2 := by
  have key : (p0 - p1) / (p0 - 2 * p1 + p2) * (p0 - 2 * p1 + p2) = p0 - p1 :=
    div_mul_cancel₀ _ (ne_of_lt hd)
  have hmul : 0 ≤ (-(p0 - 2 * p1 + p2)) * ((1 - t) *
      (2 * ((p0 - p1) / (p0 - 2 * p1 + p2)) - 1 - t)) := by
    have ha : 0 ≤ 1 - t := by linarith
    have hb : 0 ≤ 2 * ((p0 - p1) / (p0 - 2 * p1 + p2)) - 1 - t := by linarith
    have hneg : 0 ≤ -(p0 - 2 * p1 + p2) := by linarith
    positivity
  unfold bezier
  nlinarith [hmul, key]

theorem curveRawMinMax_fst_le_bezier (p0 p1 p2 t : ℚ) (h0 : 0 ≤ t) (h1 : t ≤ 1) :
    (curveRawMinMax p0 p1 p2).1 ≤ bezier p0 p1 p2 t := by
  by_cases hd : p0 - 2 * p1 + p2 = 0
  · rw [curveRawMinMax_of_no_crit p0 p1 p2 (Or.inl hd)]
    exact min_le_bezier_of_nonpos p0 p1 p2 t (le_of_eq hd) h0 h1
  · by_cases hts : 0 < (p0 - p1) / (p0 - 2 * p1 + p2) ∧ (p0 - p1) / (p0 - 2 * p1 + p2) < 1
    · rw [curveRawMinMax_of_crit p0 p1 p2 hd hts]
      rcases lt_or_gt_of_ne hd with hneg | hpos
      · exact le_trans (min_le_left _ _) (min_le_bezier_of_nonpos p0 p1 p2 t hneg.le h0 h1)
      · exact le_trans (min_le_right _ _) (bezier_crit_le_of_pos p0 p1 p2 t hpos)
    · rw [curveRawMinMax_of_no_crit p0 p1 p2 (Or.inr hts)]
      rcases lt_or_gt_of_ne hd with hneg | hpos
      · exact min_le_bezier_of_nonpos p0 p1 p2 t hneg.le h0 h1
      · push_neg at hts
        by_cases hts0 : (p0 - p1) / (p0 - 2 * p1 + p2) ≤ 0
        · exact le_trans (min_le_left _ _)
            (p0_le_bezier_of_crit_nonpos p0 p1 p2 t hpos hts0 h0)
        · push_neg at hts0
          exact le_trans (min_le_right _ _)
            (p2_le_bezier_of_crit_ge_one p0 p1 p2 t hpos (hts hts0) h1)

theorem bezier_le_curveRawMinMax_snd (p0 p1 p2 t : ℚ) (h0 : 0 ≤ t) (h1 : t ≤ 1) :
    bezier p0 p1 p2 t ≤ (curveRawMinMax p0 p1 p2).2 := by
  by_cases hd : p0 - 2 * p1 + p2 = 0
  · rw [curveRawMinMax_of_no_crit p0 p1 p2 (Or.inl hd)]
    exact bezier_le_max_of_nonneg p0 p1 p2 t (ge_of_eq hd) h0 h1
  · by_cases hts : 0 < (p0 - p1) / (p0 - 2 * p1 + p2) ∧ (p0 - p1) / (p0 - 2 * p1 + p2) < 1
    · rw [curveRawMinMax_of_crit p0 p1 p2 hd hts]
      rcases lt_or_gt_of_ne hd with hneg | hpos
      · exact le_trans (le_bezier_crit_of_neg p0 p1 p2 t hneg) (le_max_right _ _)
      · exact le_trans (bezier_le_max_of_nonneg p0 p1 p2 t hpos.le h0 h1) (le_max_left _ _)
    · rw [curveRawMinMax_of_no_crit p0 p1 p2 (Or.inr hts)]
      rcases lt_or_gt_of_ne hd with hneg | hpos
      · push_neg at hts
        by_cases hts0 : (p0 - p1) / (p0 - 2 * p1 + p2) ≤ 0
        · exact le_trans (bezier_le_p0_of_crit_nonpos p0 p1 p2 t hneg hts0 h0)
            (le_max_left _ _)
        · push_neg at hts0
          exact le_trans (bezier_le_p2_of_crit_ge_one p0 p1 p2 t hneg (hts hts0) h1)
            (le_max_right _ _)
      · exact bezier_le_max_of_nonneg p0 p1 p2 t hpos.le h0 h1

theorem curveRawMinMax_fst_le_min (p0 p1 p2 : ℚ) :
    (curveRawMinMax p0 p1 p2).1 ≤ min p0 p2 := by
  by_cases hd : p0 - 2 * p1 + p2 = 0
  · rw [curveRawMinMax_of_no_crit p0 p1 p2 (Or.inl hd)]
  · by_cases hts : 0 < (p0 - p1) / (p0 - 2 * p1 + p2) ∧ (p0 - p1) / (p0 - 2 * p1 + p2) < 1
    · rw [curveRawMinMax_of_crit p0 p1 p2 hd hts]
      exact min_le_left _ _
    · rw [curveRawMinMax_of_no_crit p0 p1 p2 (Or.inr hts)]

theorem max_le_curveRawMinMax_snd (p0 p1 p2 : ℚ) :
    max p0 p2 ≤ (curveRawMinMax p0 p1 p2).2 := by
  by_cases hd : p0 - 2 * p1 + p2 = 0
  · rw [curveRawMinMax_of_no_crit p0 p1 p2 (Or.inl hd)]
  · by_cases hts : 0 < (p0 - p1) / (p0 - 2 * p1 + p2) ∧ (p0 - p1) / (p0 - 2 * p1 + p2) < 1
    · rw [curveRawMinMax_of_crit p0 p1 p2 hd hts]
      exact le_max_left _ _
    · rw [curveRawMinMax_of_no_crit p0 p1 p2 (Or.inr hts)]

theorem curveRawMinMax_fst_le_snd (p0 p1 p2 : ℚ) :
    (curveRawMinMax p0 p1 p2).1 ≤ (curveRawMinMax p0 p1 p2).2 :=
  le_trans (curveRawMinMax_fst_le_min p0 p1 p2)
    (le_trans (min_le_max) (max_le_curveRawMinMax_snd p0 p1 p2))

theorem round_mono_rat (a b : ℚ) (h : a ≤ b) : round a ≤ round b := by
  rw [round_eq, round_eq]
  exact Int.floor_le_floor (by linarith)

theorem round_rat_eq (q : ℚ) (n : ℤ) (h1 : (n : ℚ) ≤ q + 1/2) (h2 : q + 1/2 < n + 1) :
    round q = n := by
  rw [round_eq]
  exact Int.floor_eq_iff.mpr ⟨h1, by exact_mod_cast h2⟩

/-- C6: the bezier evaluation satisfies endpoint interpolation, `bezier p0 p1 p2 0 = p0`
and `bezier p0 p1 p2 1 = p2`, for all control values. -/
theorem bezier_endpoint_interpolation (p0 p1 p2 : ℚ) :
    bezier p0 p1 p2 0 = p0 ∧ bezier p0 p1 p2 1 = p2 := by
  unfold bezier
  constructor <;> ring

/-- C1 (counterexample): the bounds returned by `quadraticCurveMinMax` do not always
contain the curve: at `p0 = p1 = p2 = 3/5` the function returns `(1, 1)` because of
`Math.round`, yet the curve value at `t = 0` is `3/5 < 1`. -/
theorem quadraticCurveMinMax_bounds_counterexample :
    bezier (3/5) (3/5) (3/5) 0 < ((quadraticCurveMinMax (3/5) (3/5) (3/5)).1 : ℚ) := by
  have h : quadraticCurveMinMax (3/5) (3/5) (3/5) = (1, 1) := by
    unfold quadraticCurveMinMax bezier
    norm_num
    all_goals exact round_rat_eq _ 1 (by norm_num) (by norm_num)
  rw [h]
  unfold bezier
  norm_num

/-- C1 (amended): the integer pair returned by `quadraticCurveMinMax` bounds every
value the curve attains for `t ∈ [0,1]` up to the half-unit error introduced by the
final `Math.round`: `min - 1/2 ≤ bezier p0 p1 p2 t ≤ max + 1/2`. -/
theorem quadraticCurveMinMax_bounds_bezier_within_half (p0 p1 p2 t : ℚ)
    (h0 : 0 ≤ t) (h1 : t ≤ 1) :
    ((quadraticCurveMinMax p0 p1 p2).1 : ℚ) - 1/2 ≤ bezier p0 p1 p2 t ∧
    bezier p0 p1 p2 t ≤ ((quadraticCurveMinMax p0 p1 p2).2 : ℚ) + 1/2 := by
  rw [quadraticCurveMinMax_eq_round]
  constructor
  · have hr := round_le_add_half (curveRawMinMax p0 p1 p2).1
    have hc := curveRawMinMax_fst_le_bezier p0 p1 p2 t h0 h1
    simp only [Prod.fst]
    linarith
  · have hr := sub_half_lt_round (curveRawMinMax p0 p1 p2).2
    have hc := bezier_le_curveRawMinMax_snd p0 p1 p2 t h0 h1
    simp only [Prod.snd]
    linarith

/-- C1 (witness): the amended bound instantiated at the spec's worked example
`p0 = 0, p1 = 100, p2 = 0, t = 1/2`, whose extent is `(0, 50)`. -/
theorem quadraticCurveMinMax_bounds_bezier_within_half_witness :
    (0:ℚ) ≤ 1/2 ∧ (1:ℚ)/2 ≤ 1 ∧
    (((quadraticCurveMinMax 0 100 0).1 : ℚ) - 1/2 ≤ bezier 0 100 0 (1/2) ∧
      bezier 0 100 0 (1/2) ≤ ((quadraticCurveMinMax 0 100 0).2 : ℚ) + 1/2) :=
  ⟨by norm_num, by norm_num,
    quadraticCurveMinMax_bounds_bezier_within_half 0 100 0 (1/2) (by norm_num) (by norm_num)⟩

/-- C3 (counterexample): in the collinear case the function does not return
`(min p0 p2, max p0 p2)` exactly: at `p0 = p1 = p2 = 1/2` the denominator vanishes
but the rounded result is `(1, 1)`, not `(1/2, 1/2)`. -/
theorem quadraticCurveMinMax_collinear_counterexample :
    ((1:ℚ)/2) - 2 * (1/2) + 1/2 = 0 ∧
    ((quadraticCurveMinMax (1/2) (1/2) (1/2)).1 : ℚ) ≠ min ((1:ℚ)/2) (1/2) := by
  have h : quadraticCurveMinMax (1/2) (1/2) (1/2) = (1, 1) := by
    unfold quadraticCurveMinMax bezier
    norm_num
    all_goals exact round_rat_eq _ 1 (by norm_num) (by norm_num)
  rw [h]
  norm_num

/-- C3 (amended): whenever `p0 - 2*p1 + p2 = 0` (the degenerate, collinear case),
`quadraticCurveMinMax` returns exactly the rounded endpoint bounds
`(round (min p0 p2), round (max p0 p2))`. -/
theorem quadraticCurveMinMax_collinear_rounded (p0 p1 p2 : ℚ)
    (h : p0 - 2 * p1 + p2 = 0) :
    quadraticCurveMinMax p0 p1 p2 = (round (min p0 p2), round (max p0 p2)) := by
  unfold quadraticCurveMinMax
  simp [h]

/-- C3 (witness): the amended collinear statement at `p0 = 0, p1 = 1, p2 = 2`. -/
theorem quadraticCurveMinMax_collinear_rounded_witness :
    (0:ℚ) - 2 * 1 + 2 = 0 ∧
    quadraticCurveMinMax 0 1 2 = (round (min (0:ℚ) 2), round (max (0:ℚ) 2)) :=
  ⟨by norm_num, quadraticCurveMinMax_collinear_rounded 0 1 2 (by norm_num)⟩

/-- C10: `quadraticCurveMinMax` always returns a well-ordered integer range:
`lo ≤ hi`, with `lo ≤ round (min p0 p2)` and `round (max p0 p2) ≤ hi`. -/
theorem quadraticCurveMinMax_ordered_integer_range (p0 p1 p2 : ℚ) :
    (quadraticCurveMinMax p0 p1 p2).1 ≤ (quadraticCurveMinMax p0 p1 p2).2 ∧
    (quadraticCurveMinMax p0 p1 p2).1 ≤ round (min p0 p2) ∧
    round (max p0 p2) ≤ (quadraticCurveMinMax p0 p1 p2).2 := by
  rw [quadraticCurveMinMax_eq_round]
  refine ⟨?_, ?_, ?_⟩
  · exact round_mono_rat _ _ (curveRawMinMax_fst_le_snd p0 p1 p2)
  · exact round_mono_rat _ _ (curveRawMinMax_fst_le_min p0 p1 p2)
  · exact round_mono_rat _ _ (max_le_curveRawMinMax_snd p0 p1 p2)

/-- C2 (code bug): `render` assigns `this.timer = null` before the
`if (this.timer) clearTimeout(this.timer)` guard ever runs, so the guard is dead
and a previously scheduled retry is never canceled.  Two consecutive render
passes with unresolved selectors leave two timeouts pending at once, violating
the claimed at-most-one-pending-retry invariant. -/
theorem render_two_pending_timers :
    (render defaultProps domMissing (render defaultProps domMissing initialSched).2).2.pending
      = [(0, 200), (1, 200)] := by
  rfl

/-- C7 (code bug): teardown only cancels the handle still stored in `this.timer`;
a retry orphaned by the `this.timer = null` assignment of a later render pass
stays pending after `componentWillUnmount`, so its `forceUpdate` callback still
fires after teardown.  Concretely: two renders with unresolved selectors, then
unmount, leave the first retry (handle 0, 200 ms) pending. -/
theorem unmount_leaves_orphan_timer :
    (componentWillUnmount
        (render defaultProps domMissing (render defaultProps domMissing initialSched).2).2).pending
      = [(0, 200)] := by
  rfl

/-- C8: outside the server-side no-op, a render pass in which either selector
resolves to nothing returns null and schedules a retry timeout of exactly
200 ms, and a pass in which both resolve produces visible output unless the
`hideIfFoundSelector` suppression applies. -/
theorem render_missing_schedules_retry (props : Props) (dom : Dom) (s : Sched)
    (hs : dom.serverSide = false) :
    ((dom.fromElem = none ∨ dom.toElem = none) →
      (render props dom s).1 = none ∧
      (render props dom s).2.timer = some s.nextId ∧
      (s.nextId, 200) ∈ (render props dom s).2.pending) ∧
    (∀ rf rt, dom.fromElem = some rf → dom.toElem = some rt →
      (props.hideIfFoundProvided && dom.hideFound) = false →
      ((render props dom s).1).isSome = true) := by
  obtain ⟨sv, fe, te, hfnd, sy⟩ := dom
  simp only at hs
  subst hs
  constructor
  · intro hmiss
    cases fe <;> cases te <;>
      simp_all [render, setTimeout, clearTimeout]
  · intro rf rt hrf hrt hhide
    cases fe <;> cases te <;> simp_all [render, setTimeout, clearTimeout]
    have hcond : ¬(props.hideIfFoundProvided = true ∧ hfnd = true) := by
      rintro ⟨h1, h2⟩
      exact absurd h2 (by simp [hhide h1])
    simp [hcond]

/-- C8 (witness): the retry conclusion at a fresh instance with both selectors
unresolved, and the visible-output conclusion at a DOM where both resolve. -/
theorem render_missing_schedules_retry_witness :
    (render defaultProps domMissing initialSched).1 = none ∧
    (0, 200) ∈ (render defaultProps domMissing initialSched).2.pending ∧
    ((render defaultProps ⟨false, some ⟨0, 0, 2, 2⟩, some ⟨4, 4, 2, 2⟩, false, 0⟩
        initialSched).1).isSome = true := by
  have h := render_missing_schedules_retry defaultProps domMissing initialSched rfl
  have h2 := render_missing_schedules_retry defaultProps
    ⟨false, some ⟨0, 0, 2, 2⟩, some ⟨4, 4, 2, 2⟩, false, 0⟩ initialSched rfl
  exact ⟨(h.1 (Or.inl rfl)).1, (h.1 (Or.inl rfl)).2.2, h2.2 ⟨0, 0, 2, 2⟩ ⟨4, 4, 2, 2⟩ rfl rfl rfl⟩

/-- C5: whenever `render` produces settings, its anchor points are the resolved
rect centers with X offsets added, Y offsets subtracted and vertical scroll
folded in, and its control point is the midpoint of the anchors plus
`(middleX, -middleY)` - the formulas the spec states. -/
theorem render_settings_match_spec_anchors (props : Props) (dom : Dom) (s : Sched)
    (rf rt : Rect) (st : Settings)
    (hf : dom.fromElem = some rf) (ht : dom.toElem = some rt)
    (hout : (render props dom s).1 = some st) :
    (st.p0x, st.p0y) = specAnchor rf props.fromOffsetX props.fromOffsetY dom.scrollY ∧
    (st.p2x, st.p2y) = specAnchor rt props.toOffsetX props.toOffsetY dom.scrollY ∧
    (st.p1x, st.p1y) =
      specControl (st.p0x, st.p0y) (st.p2x, st.p2y) props.middleX props.middleY := by
  obtain ⟨sv, fe, te, hfnd, sy⟩ := dom
  subst hf
  subst ht
  cases sv
  · by_cases hhide : (props.hideIfFoundProvided && hfnd) = true
    · simp [render, hhide] at hout
    · simp only [render, Bool.not_eq_true] at hout
      simp [hhide] at hout
      subst hout
      simp [specAnchor, specControl]
  · simp [render] at hout

/-- C5 (witness): anchors from a 200x200 rect at the origin and a 100x100 rect
at (300,100), with scroll offset 50 and default props. -/
theorem render_settings_match_spec_anchors_witness :
    ((100 : ℚ), (150 : ℚ)) = specAnchor ⟨0, 0, 200, 200⟩ 0 0 50 ∧
    ((350 : ℚ), (200 : ℚ)) = specAnchor ⟨300, 100, 100, 100⟩ 0 0 50 ∧
    ((225 : ℚ), (175 : ℚ)) = specControl (100, 150) (350, 200) 0 0 :=
  render_settings_match_spec_anchors defaultProps
    ⟨false, some ⟨0, 0, 200, 200⟩, some ⟨300, 100, 100, 100⟩, false, 50⟩
    initialSched ⟨0, 0, 200, 200⟩ ⟨300, 100, 100, 100⟩
    ⟨100, 150, 225, 175, 350, 200, 30, 8⟩ rfl rfl
    (by norm_num [render, initialSched, defaultProps])

theorem ctxRotate_ctxRotate (θ φ : ℝ) (p : ℝ × ℝ) :
    ctxRotate θ (ctxRotate φ p) = ctxRotate (θ + φ) p := by
  unfold ctxRotate
  simp only [Real.cos_add, Real.sin_add, Prod.mk.injEq]
  constructor <;> ring

theorem ctxRotate_zero_eq (p : ℝ × ℝ) : ctxRotate 0 p = p := by
  unfold ctxRotate
  simp

/-- C9: the transform commands issued around the arrowhead compose to the
identity, so the context transform state is unchanged after the arrowhead is
drawn; the cumulative rotations in effect for the two head strokes are
`angle + 1` and `angle - 1`, symmetric about the heading angle. -/
theorem arrowhead_transform_stack_clean (angle : ℝ) (p2 p : ℝ × ℝ) :
    composite (arrowheadOps angle p2) p = p ∧
    composite [ctxTranslate p2, ctxRotate (angle + 1), ctxRotate (-2)] p =
      composite [ctxTranslate p2, ctxRotate (angle - 1)] p ∧
    (angle + 1) - angle = angle - (angle - 1) := by
  refine ⟨?_, ?_, by ring⟩
  · show ctxTranslate p2
      (ctxRotate (angle + 1)
        (ctxRotate (-2) (ctxRotate (1 - angle) (ctxTranslate (-p2.1, -p2.2) p)))) = p
    rw [ctxRotate_ctxRotate, ctxRotate_ctxRotate]
    rw [show angle + 1 + -2 + (1 - angle) = 0 by ring, ctxRotate_zero_eq]
    unfold ctxTranslate
    simp
  · show ctxTranslate p2 (ctxRotate (angle + 1) (ctxRotate (-2) p)) =
      ctxTranslate p2 (ctxRotate (angle - 1) p)
    rw [ctxRotate_ctxRotate, show angle + 1 + -2 = angle - 1 by ring]

/-- C4 (counterexample): the padded canvas box does not always contain the
arrowhead strokes.  For the horizontal control triple `(0,0), (50,0), (100,0)`
with stroke width 20 (padding `30 - 20 = 10`), the endpoint of the second
arrowhead stroke lies at `y = -30 * cos 1 < -15`, below the box's
`yMin = -10`. -/
theorem canvasBox_clips_arrowhead :
    (arrowheadLeftTip (50, 0) (100, 0) 30).2 <
      (((canvasBox ⟨0, 0, 50, 0, 100, 0, 30, 20⟩).yMin : ℚ) : ℝ) := by
  have hbox : (canvasBox ⟨0, 0, 50, 0, 100, 0, 30, 20⟩).yMin = -10 := by
    unfold canvasBox quadraticCurveMinMax bezier
    norm_num
  rw [hbox]
  have hangle : atan2 ((100, (0:ℝ)).2 - (50, (0:ℝ)).2) ((100, (0:ℝ)).1 - (50, (0:ℝ)).1) = 0 := by
    unfold atan2
    norm_num
  unfold arrowheadLeftTip
  rw [hangle]
  show (ctxTranslate (100, 0) (ctxRotate (0 + 1) (ctxRotate (-2) (0, -30)))).2 <
    (((-10 : ℚ) : ℝ))
  rw [ctxRotate_ctxRotate, show (0:ℝ) + 1 + -2 = -1 by ring]
  unfold ctxRotate ctxTranslate
  simp only [Real.cos_neg, Real.sin_neg]
  have hcos : (1:ℝ) - 1 ^ 2 / 2 ≤ Real.cos 1 := Real.one_sub_sq_div_two_le_cos
  norm_num
  nlinarith [hcos]

/-- C4 (amended): for stroke widths up to `59/3`, the padded canvas box does
contain the stroked curve body, every curve point lying at least half the
stroke width inside the box on both axes; the arrowhead strokes are not
guaranteed to stay inside. -/
theorem canvasBox_contains_stroked_curve (st : Settings) (hsize : st.size = 30)
    (hw0 : 0 < st.lineWidth) (hw : st.lineWidth ≤ 59/3)
    (t : ℚ) (h0 : 0 ≤ t) (h1 : t ≤ 1) :
    (canvasBox st).xMin + st.lineWidth / 2 ≤ bezier st.p0x st.p1x st.p2x t ∧
    bezier st.p0x st.p1x st.p2x t ≤ (canvasBox st).xMax - st.lineWidth / 2 ∧
    (canvasBox st).yMin + st.lineWidth / 2 ≤ bezier st.p0y st.p1y st.p2y t ∧
    bezier st.p0y st.p1y st.p2y t ≤ (canvasBox st).yMax - st.lineWidth / 2 := by
  have hx1 := curveRawMinMax_fst_le_bezier st.p0x st.p1x st.p2x t h0 h1
  have hx2 := bezier_le_curveRawMinMax_snd st.p0x st.p1x st.p2x t h0 h1
  have hy1 := curveRawMinMax_fst_le_bezier st.p0y st.p1y st.p2y t h0 h1
  have hy2 := bezier_le_curveRawMinMax_snd st.p0y st.p1y st.p2y t h0 h1
  have rx1 := round_le_add_half (curveRawMinMax st.p0x st.p1x st.p2x).1
  have rx2 := sub_half_lt_round (curveRawMinMax st.p0x st.p1x st.p2x).2
  have ry1 := round_le_add_half (curveRawMinMax st.p0y st.p1y st.p2y).1
  have ry2 := sub_half_lt_round (curveRawMinMax st.p0y st.p1y st.p2y).2
  simp only [canvasBox, quadraticCurveMinMax_eq_round, hsize]
  refine ⟨by linarith, by linarith, by linarith, by linarith⟩

/-- C4 (witness): the amended containment at the straight horizontal triple
`(0,0), (50,0), (100,0)` with the default stroke width 8, at `t = 0`. -/
theorem canvasBox_contains_stroked_curve_witness :
    ((0:ℚ) < 8 ∧ (8:ℚ) ≤ 59/3) ∧
    ((canvasBox ⟨0, 0, 50, 0, 100, 0, 30, 8⟩).xMin + (8:ℚ) / 2 ≤ bezier 0 50 100 0 ∧
      bezier 0 50 100 0 ≤ (canvasBox ⟨0, 0, 50, 0, 100, 0, 30, 8⟩).xMax - (8:ℚ) / 2 ∧
      (canvasBox ⟨0, 0, 50, 0, 100, 0, 30, 8⟩).yMin + (8:ℚ) / 2 ≤ bezier 0 0 0 0 ∧
      bezier 0 0 0 0 ≤ (canvasBox ⟨0, 0, 50, 0, 100, 0, 30, 8⟩).yMax - (8:ℚ) / 2) :=
  ⟨⟨by norm_num, by norm_num⟩,
    canvasBox_contains_stroked_curve ⟨0, 0, 50, 0, 100, 0, 30, 8⟩ rfl
      (by norm_num) (by norm_num) 0 (by norm_num) (by norm_num)⟩
